import Mathlib

/-!
# ProfRater — shallow embedding of the asynchronous job pipeline

This file embeds the job lifecycle of the ProfRater system:

* the Next.js submission route `POST /api/start-scrape` (creates a `queued`
  job in Redis and fire-and-forget triggers the worker),
* the polling route `GET /api/check-job` (pure read),
* the worker route `POST /run-job` (load, claim `running`, scrape, analyze,
  commit `complete`, with a best-effort `error` write in the catch block),
* the scraper's defaulting of optional extracted fields.

Redis is modelled as an association list keyed by job id; `redis.set` is a
whole-record overwrite.  JavaScript `number` fields are modelled as `Rat`
(no arithmetic is performed on them).  Timestamps (`new Date().toISOString()`)
are opaque strings supplied by the caller.  The external collaborators
(`scrapeProfessor`, `analyzeWithAI`) and the fallibility of individual Redis
writes are supplied through an environment record, mirroring that each
`await` in the worker can either return a value or throw.
-/

namespace ProfRater

/-- Review record as produced by the worker pipeline (backend `types.ts`):
all optional extracted fields already defaulted. -/
structure Review where
  rating : Rat
  difficulty : Rat
  course : String
  date : String
  comment : String
  tags : List String
  thumbsUp : Rat
  thumbsDown : Rat
  deriving DecidableEq, Repr

/-- Aggregate professor statistics (backend `types.ts`). -/
structure ProfessorInfo where
  overallRating : Rat
  totalRatings : Rat
  wouldTakeAgainPercent : Rat
  difficultyRating : Rat
  department : String
  deriving DecidableEq, Repr

/-- What `scrapeProfessor` returns on success. -/
structure ScraperResult where
  professorInfo : ProfessorInfo
  reviews : List Review
  deriving DecidableEq, Repr

/-- The payload stored on a `complete` job (worker `Job.result`). -/
structure JobResult where
  reviews : List Review
  professorInfo : ProfessorInfo
  aiSummary : String
  deriving DecidableEq, Repr

/-- Job status values actually written by the system: the submission route
writes `"queued"` and the worker writes `"running"`, `"complete"`,
`"error"` (`lib/types.ts` `JobStatus`). -/
inductive JobStatus where
  | queued
  | running
  | complete
  | error
  deriving DecidableEq, Repr

/-- A terminal status (`complete` or `error`). -/
def JobStatus.isTerminal : JobStatus → Bool
  | .complete => true
  | .error => true
  | _ => false

/-- The persisted Job record (`lib/types.ts` `Job`).  `updatedAt` is absent
at creation and set by every worker write. -/
structure Job where
  status : JobStatus
  professorName : String
  university : String
  userQuestion : Option String
  result : Option JobResult
  error : Option String
  createdAt : String
  updatedAt : Option String
  deriving DecidableEq, Repr

/-- The Redis job store: one JSON record per job id, modelled as an
association list where the most recent `set` shadows older entries. -/
abbrev Store := List (String × Job)

/-- `getJob` (`lib/redis.ts`): `redis.get(jobId)`, `null` when absent. -/
def getJob : Store → String → Option Job
  | [], _ => none
  | (k, j) :: rest, jobId => if k = jobId then some j else getJob rest jobId

/-- `setJob` (`lib/redis.ts`): `redis.set(jobId, JSON.stringify(job))`,
a whole-record overwrite. -/
def setJob (s : Store) (jobId : String) (job : Job) : Store :=
  (jobId, job) :: s

/-- Request body of `POST /api/start-scrape`.  A field missing from the JSON
body and the empty string are both falsy under the handler's
`if (!professorName || !university)` check, so both are modelled as `""`. -/
structure StartScrapeRequest where
  professorName : String
  university : String
  userQuestion : Option String
  deriving DecidableEq, Repr

/-- Responses of `POST /api/start-scrape`. -/
inductive StartScrapeResponse where
  | badRequest (error : String)
  | created (jobId : String) (message : String)
  deriving DecidableEq, Repr

/-- `POST /api/start-scrape` (app/api/start-scrape/route.ts): validate the
two required fields with a JavaScript falsy check, write a fresh `queued`
job, fire-and-forget the worker trigger (its outcome `triggerOk` is only
logged — it influences neither the store nor the response), return `201`.
`jobId` is the `randomUUID()` value and `now` the creation timestamp. -/
def startScrape (s : Store) (req : StartScrapeRequest) (jobId : String)
    (now : String) (triggerOk : Bool) : Store × StartScrapeResponse :=
  if req.professorName = "" ∨ req.university = "" then
    (s, .badRequest "professorName and university are required")
  else
    let job : Job :=
      { status := .queued
        professorName := req.professorName
        university := req.university
        userQuestion := req.userQuestion
        result := none
        error := none
        createdAt := now
        updatedAt := none }
    -- the fetch to the worker is fire-and-forget: `triggerOk` is unused
    let _ := triggerOk
    (setJob s jobId job, .created jobId "Job created successfully")

/-- Responses of `GET /api/check-job`. -/
inductive CheckJobResponse where
  | badRequest (error : String)
  | notFound (error : String)
  | ok (jobId : String) (job : Job)
  deriving DecidableEq, Repr

/-- `GET /api/check-job` (app/api/check-job/route.ts): `searchParams.get('id')`
is `null` when the parameter is missing; the handler's `if (!jobId)` also
rejects the empty string.  A pure read — no write is performed. -/
def checkJob (s : Store) (id : Option String) : CheckJobResponse :=
  match id with
  | none => .badRequest "Job ID is required (query param: id)"
  | some jobId =>
    if jobId = "" then .badRequest "Job ID is required (query param: id)"
    else
      match getJob s jobId with
      | none => .notFound ("Job " ++ jobId ++ " not found")
      | some job => .ok jobId job

/-- Responses of the worker's `POST /run-job`. -/
inductive RunJobResponse where
  | badRequest (message : String)
  | notFound (message : String)
  | ok (message : String) (reviewCount : Nat)
  | serverError (message : String)
  deriving DecidableEq, Repr

/-- Environment of one `POST /run-job` invocation: the two collaborator
calls (which return a value or throw, `Except.error` carrying the thrown
message) and the outcome of each fallible Redis operation inside the
handler, plus the timestamps taken at each write. -/
structure WorkerEnv where
  scrape : String → String → Except String ScraperResult
  analyze : List Review → ProfessorInfo → Option String → Except String String
  claimWriteOk : Bool
  claimFailMsg : String
  commitWriteOk : Bool
  commitFailMsg : String
  errorReadOk : Bool
  errorWriteOk : Bool
  tClaim : String
  tCommit : String
  tError : String

/-- The worker's catch block (server.ts lines 262–304): re-read the job,
and if it exists overwrite it with `status = 'error'`, the thrown message
and a fresh `updatedAt`; a failure of that read or write is swallowed by
the inner catch.  Always answers `500 {success:false, message}`. -/
def runJobCatch (s : Store) (jobId : String) (env : WorkerEnv)
    (msg : String) : Store × RunJobResponse :=
  let s' :=
    if env.errorReadOk then
      match getJob s jobId with
      | none => s
      | some job =>
        if env.errorWriteOk then
          setJob s jobId
            { job with status := .error, error := some msg,
                       updatedAt := some env.tError }
        else s
    else s
  (s', .serverError msg)

/-- The worker's `POST /run-job` handler (worker server.ts):
`if (!jobId)` → 400 before any Redis access; load (absent → 404);
claim-write `status = 'running'` with no precondition on the prior status;
scrape; analyze; commit-write `status = 'complete'` with the result.
Any throw in the claim write, scrape, analysis or commit falls into
`runJobCatch`. -/
def runJob (s : Store) (jobId : Option String) (env : WorkerEnv) :
    Store × RunJobResponse :=
  match jobId with
  | none => (s, .badRequest "Missing jobId in request body")
  | some jid =>
    if jid = "" then (s, .badRequest "Missing jobId in request body")
    else
      match getJob s jid with
      | none => (s, .notFound ("Job " ++ jid ++ " not found"))
      | some job =>
        let updatedJob : Job :=
          { job with status := .running, updatedAt := some env.tClaim }
        if env.claimWriteOk then
          let s1 := setJob s jid updatedJob
          match env.scrape job.professorName job.university with
          | .error msg => runJobCatch s1 jid env msg
          | .ok scraperResult =>
            match env.analyze scraperResult.reviews scraperResult.professorInfo
                job.userQuestion with
            | .error msg => runJobCatch s1 jid env msg
            | .ok aiSummary =>
              let completedJob : Job :=
                { updatedJob with
                    status := .complete
                    result := some
                      { reviews := scraperResult.reviews
                        professorInfo := scraperResult.professorInfo
                        aiSummary := aiSummary }
                    updatedAt := some env.tCommit }
              if env.commitWriteOk then
                (setJob s1 jid completedJob,
                 .ok ("Job " ++ jid ++ " completed successfully")
                   scraperResult.reviews.length)
              else runJobCatch s1 jid env env.commitFailMsg
        else runJobCatch s jid env env.claimFailMsg

/-!
## Trace semantics

One `Op` per HTTP request touching the store.  `execOp` is the effect of a
request on the store (the response is recovered from the handler functions
above).  `OpAllowed` captures the operating conditions the system relies
on: `randomUUID()` never collides with an existing key, and — for the
amended lifecycle claims — each job id is dispatched to the worker at most
once (the design is fire-and-forget with no duplicate-trigger protection,
so this is a genuine restriction; the counterexamples below drop it).
-/

/-- One store-touching HTTP request. -/
inductive Op where
  | submitOp (jobId : String) (req : StartScrapeRequest) (now : String)
      (triggerOk : Bool)
  | runJobOp (jobId : Option String) (env : WorkerEnv)
  | checkJobOp (id : Option String)

/-- Effect of a request on the job store. -/
def execOp (s : Store) : Op → Store
  | .submitOp jobId req now triggerOk => (startScrape s req jobId now triggerOk).1
  | .runJobOp jobId env => (runJob s jobId env).1
  | .checkJobOp _ => s

/-- Job ids consumed by a request, for the at-most-one-`runJob` discipline. -/
def opUsed (u : List String) : Op → List String
  | .runJobOp (some jid) _ => jid :: u
  | _ => u

/-- `OpAllowed u s op`: the request `op` is admissible on store `s` when the
ids in `u` have already been dispatched: submissions use a fresh id, and no
job id is dispatched to the worker twice. -/
inductive OpAllowed : List String → Store → Op → Prop where
  | submit {u s jobId req now triggerOk} : getJob s jobId = none →
      OpAllowed u s (.submitOp jobId req now triggerOk)
  | runJobSome {u s jid env} : jid ∉ u →
      OpAllowed u s (.runJobOp (some jid) env)
  | runJobNone {u s env} : OpAllowed u s (.runJobOp none env)
  | checkJob {u s id} : OpAllowed u s (.checkJobOp id)

/-- Stores reachable from the empty store by admissible requests, together
with the set of already-dispatched job ids. -/
inductive Reach : List String → Store → Prop where
  | init : Reach [] []
  | step {u s op} : Reach u s → OpAllowed u s op →
      Reach (opUsed u op) (execOp s op)

/-- Field coherence of a single job record: `result` populated exactly on
`complete`, `error` populated exactly on `error`, neither before a terminal
state. -/
def jobFieldsOk (j : Job) : Bool :=
  match j.status with
  | .queued => j.result.isNone && j.error.isNone
  | .running => j.result.isNone && j.error.isNone
  | .complete => j.result.isSome && j.error.isNone
  | .error => j.result.isNone && j.error.isSome

/-- Store invariant carried through reachability: every stored job is
field-coherent, and a job never yet dispatched to the worker is still
`queued`. -/
def StoreInv (u : List String) (s : Store) : Prop :=
  ∀ id j, getJob s id = some j →
    jobFieldsOk j = true ∧ (id ∉ u → j.status = .queued)

/-- Rank of a job slot along the forward lifecycle
`absent → queued → running → terminal`. -/
def jobRank : Option Job → Nat
  | none => 0
  | some j =>
    match j.status with
    | .queued => 1
    | .running => 2
    | .complete => 3
    | .error => 3

/-- One admissible request moves a job slot only forward, and leaves a
terminal job untouched. -/
def stepOk (b a : Option Job) : Prop :=
  jobRank b ≤ jobRank a ∧
    ∀ j, b = some j → j.status.isTerminal = true → a = b

/-!
## Store lemmas
-/

theorem getJob_setJob_self (s : Store) (jobId : String) (job : Job) :
    getJob (setJob s jobId job) jobId = some job := by
  simp [getJob, setJob]

theorem getJob_setJob_ne (s : Store) (jobId id : String) (job : Job)
    (h : id ≠ jobId) : getJob (setJob s jobId job) id = getJob s id := by
  simp only [getJob, setJob]
  rw [if_neg (fun h' => h h'.symm)]

/-!
## Shapes of the worker's writes

Every record the worker stores for a job arises from the loaded record by
one of three record updates.  The claim write and the catch write both
overwrite `status` and `updatedAt`, so the error record written after a
successful claim coincides with the one written after a failed claim.
-/

/-- The claim write of STEP 2: `{...job, status:'running', updatedAt:now}`. -/
def runningJob (env : WorkerEnv) (job : Job) : Job :=
  { job with status := .running, updatedAt := some env.tClaim }

/-- The catch-block write: `{...job, status:'error', error:msg, updatedAt:now}`. -/
def errorJob (env : WorkerEnv) (job : Job) (msg : String) : Job :=
  { job with status := .error, error := some msg, updatedAt := some env.tError }

/-- The commit write of STEP 5: `{...updatedJob, status:'complete', result, updatedAt:now}`. -/
def completeJob (env : WorkerEnv) (job : Job) (res : JobResult) : Job :=
  { job with status := .complete, result := some res,
             updatedAt := some env.tCommit }

theorem errorJob_runningJob (env : WorkerEnv) (job : Job) (msg : String) :
    ({ runningJob env job with
        status := .error
        error := some msg
        updatedAt := some env.tError } : Job) = errorJob env job msg := rfl

theorem completeJob_runningJob (env : WorkerEnv) (job : Job) (res : JobResult) :
    ({ runningJob env job with
        status := .complete
        result := some res
        updatedAt := some env.tCommit } : Job) = completeJob env job res := rfl

/-- The catch block touches no key other than `jobId`. -/
theorem runJobCatch_frame (s : Store) (jid : String) (env : WorkerEnv)
    (msg : String) (id : String) (h : id ≠ jid) :
    getJob (runJobCatch s jid env msg).1 id = getJob s id := by
  simp only [runJobCatch]
  split
  · split
    · rfl
    · split
      · exact getJob_setJob_ne _ _ _ _ h
      · rfl
  · rfl

/-- At `jobId` the catch block either leaves the record as it was or
overwrites it with the error record built from the current record. -/
theorem runJobCatch_at (s : Store) (jid : String) (env : WorkerEnv)
    (msg : String) :
    getJob (runJobCatch s jid env msg).1 jid = getJob s jid ∨
    ∃ job, getJob s jid = some job ∧
      getJob (runJobCatch s jid env msg).1 jid =
        some { job with status := .error, error := some msg,
                        updatedAt := some env.tError } := by
  simp only [runJobCatch]
  split
  · rename_i hread
    split
    · exact Or.inl rfl
    · rename_i job hjob
      split
      · exact Or.inr ⟨job, hjob, getJob_setJob_self _ _ _⟩
      · exact Or.inl rfl
  · exact Or.inl rfl

/-- The worker handler touches no key other than the requested `jobId`. -/
theorem runJob_frame (s : Store) (jid : String) (env : WorkerEnv)
    (id : String) (h : id ≠ jid) :
    getJob (runJob s (some jid) env).1 id = getJob s id := by
  simp only [runJob]
  split
  · rfl
  · split
    · rfl
    · rename_i job hjob
      split
      · split
        · exact (runJobCatch_frame _ _ _ _ _ h).trans
            (getJob_setJob_ne _ _ _ _ h)
        · rename_i scraperResult hscrape
          split
          · exact (runJobCatch_frame _ _ _ _ _ h).trans
              (getJob_setJob_ne _ _ _ _ h)
          · split
            · exact (getJob_setJob_ne _ _ _ _ h).trans
                (getJob_setJob_ne _ _ _ _ h)
            · exact (runJobCatch_frame _ _ _ _ _ h).trans
                (getJob_setJob_ne _ _ _ _ h)
      · exact runJobCatch_frame _ _ _ _ _ h

/-- At the requested `jobId`, the worker either leaves the record as it was
or overwrites it with the running, error, or complete record built from the
loaded record. -/
theorem runJob_at (s : Store) (jid : String) (env : WorkerEnv) :
    getJob (runJob s (some jid) env).1 jid = getJob s jid ∨
    ∃ job, getJob s jid = some job ∧
      (getJob (runJob s (some jid) env).1 jid = some (runningJob env job) ∨
       (∃ msg, getJob (runJob s (some jid) env).1 jid =
          some (errorJob env job msg)) ∨
       (∃ res, getJob (runJob s (some jid) env).1 jid =
          some (completeJob env job res))) := by
  simp only [runJob]
  split
  · exact Or.inl rfl
  · split
    · exact Or.inl rfl
    · rename_i job hjob
      split
      · split
        · -- scrape threw; catch runs on the claimed store
          rename_i msg hscrape
          rcases runJobCatch_at (setJob s jid (runningJob env job)) jid env msg
            with hsame | ⟨job', hjob', hwr⟩
          · exact Or.inr ⟨job, hjob,
              Or.inl (hsame.trans (getJob_setJob_self _ _ _))⟩
          · rw [getJob_setJob_self] at hjob'
            cases hjob'
            rw [errorJob_runningJob] at hwr
            exact Or.inr ⟨job, hjob, Or.inr (Or.inl ⟨msg, hwr⟩)⟩
        · rename_i scraperResult hscrape
          split
          · -- analysis threw; catch runs on the claimed store
            rename_i msg hanalyze
            rcases runJobCatch_at (setJob s jid (runningJob env job)) jid env msg
              with hsame | ⟨job', hjob', hwr⟩
            · exact Or.inr ⟨job, hjob,
                Or.inl (hsame.trans (getJob_setJob_self _ _ _))⟩
            · rw [getJob_setJob_self] at hjob'
              cases hjob'
              rw [errorJob_runningJob] at hwr
              exact Or.inr ⟨job, hjob, Or.inr (Or.inl ⟨msg, hwr⟩)⟩
          · split
            · -- commit write succeeded
              rename_i aiSummary hanalyze hcommit
              refine Or.inr ⟨job, hjob, Or.inr (Or.inr
                ⟨{ reviews := scraperResult.reviews
                   professorInfo := scraperResult.professorInfo
                   aiSummary := aiSummary }, ?_⟩)⟩
              rw [← completeJob_runningJob]
              exact getJob_setJob_self _ _ _
            · -- commit write threw; catch runs on the claimed store
              rcases runJobCatch_at (setJob s jid (runningJob env job)) jid env
                env.commitFailMsg with hsame | ⟨job', hjob', hwr⟩
              · exact Or.inr ⟨job, hjob,
                  Or.inl (hsame.trans (getJob_setJob_self _ _ _))⟩
              · rw [getJob_setJob_self] at hjob'
                cases hjob'
                rw [errorJob_runningJob] at hwr
                exact Or.inr ⟨job, hjob,
                  Or.inr (Or.inl ⟨env.commitFailMsg, hwr⟩)⟩
      · -- claim write threw; catch runs on the original store
        rcases runJobCatch_at s jid env env.claimFailMsg
          with hsame | ⟨job', hjob', hwr⟩
        · exact Or.inl hsame
        · rw [hjob] at hjob'
          cases hjob'
          exact Or.inr ⟨job, hjob,
            Or.inr (Or.inl ⟨env.claimFailMsg, hwr⟩)⟩

/-!
## Reachability invariant
-/

/-- A field-coherent `queued` job carries neither `result` nor `error`. -/
theorem fieldsOk_queued (job : Job) (h1 : jobFieldsOk job = true)
    (h2 : job.status = .queued) : job.result = none ∧ job.error = none := by
  simp only [jobFieldsOk, h2, Bool.and_eq_true, Option.isNone_iff_eq_none] at h1
  exact h1

/-- The submission handler either rejects (store unchanged) or writes the
fresh `queued` record. -/
theorem startScrape_fst (s : Store) (req : StartScrapeRequest)
    (jobId now : String) (triggerOk : Bool) :
    (startScrape s req jobId now triggerOk).1 = s ∨
    (startScrape s req jobId now triggerOk).1 = setJob s jobId
      { status := .queued
        professorName := req.professorName
        university := req.university
        userQuestion := req.userQuestion
        result := none
        error := none
        createdAt := now
        updatedAt := none } := by
  simp only [startScrape]
  split
  · exact Or.inl rfl
  · exact Or.inr rfl

/-- The submission handler touches no key other than the fresh `jobId`. -/
theorem startScrape_frame (s : Store) (req : StartScrapeRequest)
    (jobId now : String) (triggerOk : Bool) (id : String) (h : id ≠ jobId) :
    getJob (startScrape s req jobId now triggerOk).1 id = getJob s id := by
  rcases startScrape_fst s req jobId now triggerOk with h1 | h1 <;> rw [h1]
  exact getJob_setJob_ne _ _ _ _ h

/-- Every reachable store satisfies the invariant: stored jobs are
field-coherent, and jobs never dispatched to the worker are `queued`. -/
theorem reach_inv {u : List String} {s : Store} (h : Reach u s) :
    StoreInv u s := by
  induction h with
  | init => intro id j hget; cases hget
  | step hr hop ih =>
    rename_i u s op
    cases hop with
    | submit hfresh =>
      rename_i jobId req now triggerOk
      intro id j hget
      by_cases hid : id = jobId
      · subst hid
        rcases startScrape_fst s req id now triggerOk with h1 | h1 <;>
          rw [execOp] at hget <;> rw [h1] at hget
        · exact ih id j hget
        · rw [getJob_setJob_self] at hget
          cases hget
          exact ⟨rfl, fun _ => rfl⟩
      · rw [execOp, startScrape_frame s req jobId now triggerOk id hid] at hget
        exact ih id j hget
    | runJobSome hnotin =>
      rename_i jid env
      intro id j hget
      by_cases hid : id = jid
      · subst hid
        rw [execOp] at hget
        rcases runJob_at s id env with hsame | ⟨job, hjob, hshape⟩
        · rw [hsame] at hget
          exact ⟨(ih id j hget).1,
            fun hnot => absurd (List.mem_cons_self id u) hnot⟩
        · have hbase := ih id job hjob
          have hq := hbase.2 hnotin
          obtain ⟨hres, herr⟩ := fieldsOk_queued job hbase.1 hq
          have hmem : id ∈ opUsed u (Op.runJobOp (some id) env) :=
            List.mem_cons_self id u
          rcases hshape with hrun | ⟨msg, hwr⟩ | ⟨res, hwr⟩
          · rw [hrun] at hget
            cases hget
            refine ⟨?_, fun hnot => absurd hmem hnot⟩
            simp [jobFieldsOk, runningJob, hres, herr]
          · rw [hwr] at hget
            cases hget
            refine ⟨?_, fun hnot => absurd hmem hnot⟩
            simp [jobFieldsOk, errorJob, hres]
          · rw [hwr] at hget
            cases hget
            refine ⟨?_, fun hnot => absurd hmem hnot⟩
            simp [jobFieldsOk, completeJob, herr]
      · rw [execOp, runJob_frame s jid env id hid] at hget
        have := ih id j hget
        exact ⟨this.1, fun hnot => this.2 (fun hmem =>
          hnot (List.mem_cons_of_mem _ hmem))⟩
    | runJobNone =>
      intro id j hget
      exact ih id j hget
    | checkJob =>
      intro id j hget
      exact ih id j hget

/-- `stepOk` is reflexive. -/
theorem stepOk_refl (b : Option Job) : stepOk b b :=
  ⟨Nat.le_refl _, fun _ _ _ => rfl⟩

/-- Any admissible request applied to a reachable store moves every job
slot forward along `absent → queued → running → terminal` and leaves
terminal jobs untouched. -/
theorem step_mono {u : List String} {s : Store} (hr : Reach u s) (op : Op)
    (hop : OpAllowed u s op) (id : String) :
    stepOk (getJob s id) (getJob (execOp s op) id) := by
  cases hop with
  | submit hfresh =>
    rename_i jobId req now triggerOk
    by_cases hid : id = jobId
    · subst hid
      rw [hfresh]
      exact ⟨Nat.zero_le _, fun j h => by cases h⟩
    · rw [execOp, startScrape_frame s req jobId now triggerOk id hid]
      exact stepOk_refl _
  | runJobSome hnotin =>
    rename_i jid env
    by_cases hid : id = jid
    · subst hid
      rw [execOp]
      rcases runJob_at s id env with hsame | ⟨job, hjob, hshape⟩
      · rw [hsame]; exact stepOk_refl _
      · have hbase := reach_inv hr id job hjob
        have hq := hbase.2 hnotin
        rw [hjob]
        rcases hshape with hwr | ⟨msg, hwr⟩ | ⟨res, hwr⟩ <;> rw [hwr] <;>
          refine ⟨?_, fun j hj ht => absurd ht (by cases hj; rw [hq]; decide)⟩ <;>
          simp [jobRank, hq, runningJob, errorJob, completeJob]
    · rw [execOp, runJob_frame s jid env id hid]
      exact stepOk_refl _
  | runJobNone => exact stepOk_refl _
  | checkJob => exact stepOk_refl _

/-!
## Scraper defaulting (backend/src/scraper.ts)

The extraction schema (`PageDataSchema` / `ReviewSchema`) marks
`department`, `wouldTakeAgainPercent`, `difficultyRating` and the
per-review `difficulty`, `course`, `tags`, `thumbsUp`, `thumbsDown` as
optional; `scrapeProfessor`'s return statement fills the defaults with
`?? 0`, `?? "Not specified"` and `?? []`.
-/

/-- A review as extracted from the page (`ExtractedReview` in scraper.ts):
rating, date and comment are always present, the rest optional. -/
structure ExtractedReview where
  rating : Rat
  difficulty : Option Rat
  course : Option String
  date : String
  comment : String
  tags : Option (List String)
  thumbsUp : Option Rat
  thumbsDown : Option Rat
  deriving DecidableEq, Repr

/-- A page as extracted (`ExtractedPageData` in scraper.ts). -/
structure ExtractedPageData where
  professorName : String
  department : Option String
  overallRating : Rat
  totalRatings : Rat
  wouldTakeAgainPercent : Option Rat
  difficultyRating : Option Rat
  reviews : List ExtractedReview
  deriving DecidableEq, Repr

/-- The per-review arrow of `pageData.reviews.map(review => ...)` in
`scrapeProfessor`'s return statement. -/
def toReview (review : ExtractedReview) : Review :=
  { rating := review.rating
    difficulty := review.difficulty.getD 0
    course := review.course.getD "Not specified"
    date := review.date
    comment := review.comment
    tags := review.tags.getD []
    thumbsUp := review.thumbsUp.getD 0
    thumbsDown := review.thumbsDown.getD 0 }

/-- `scrapeProfessor`'s return statement (scraper.ts lines 254–273): a total
mapping from extracted page data to the `ScraperResult`, defaulting every
optional field. -/
def scrapeProfessorReturn (pageData : ExtractedPageData) : ScraperResult :=
  { professorInfo :=
      { overallRating := pageData.overallRating
        totalRatings := pageData.totalRatings
        wouldTakeAgainPercent := pageData.wouldTakeAgainPercent.getD 0
        difficultyRating := pageData.difficultyRating.getD 0
        department := pageData.department.getD "Not specified" }
    reviews := pageData.reviews.map toReview }

/-!
## Behaviour of a single `runJob` invocation
-/

/-- Full behaviour of the catch block when the job is re-readable: always a
500 response; on a successful read and write the error record is stored; a
failed read or a failed write leaves the record as it was. -/
theorem runJobCatch_spec (s : Store) (jid : String) (env : WorkerEnv)
    (msg : String) (job : Job) (hjob : getJob s jid = some job) :
    (runJobCatch s jid env msg).2 = .serverError msg ∧
    (env.errorReadOk = true → env.errorWriteOk = true →
      getJob (runJobCatch s jid env msg).1 jid =
        some { job with status := .error, error := some msg,
                        updatedAt := some env.tError }) ∧
    (env.errorWriteOk = false →
      getJob (runJobCatch s jid env msg).1 jid = some job) ∧
    (env.errorReadOk = false →
      getJob (runJobCatch s jid env msg).1 jid = some job) := by
  refine ⟨rfl, ?_, ?_, ?_⟩
  · intro hread hwrite
    simp only [runJobCatch, hread, if_true, hjob, hwrite]
    exact getJob_setJob_self _ _ _
  · intro hwrite
    simp only [runJobCatch, hjob, hwrite]
    split <;> simp [hjob]
  · intro hread
    simp only [runJobCatch, hread]
    exact hjob

/-- After a successful load and claim write, a `runJob` invocation either
commits the complete record (when scrape, analysis and the commit write all
succeed) or lands in the catch block on the claimed store. -/
theorem runJob_catch_cases (s : Store) (jid : String) (env : WorkerEnv)
    (job : Job) (hne : ¬ jid = "") (hjob : getJob s jid = some job)
    (hclaim : env.claimWriteOk = true) :
    (∃ r sum, env.scrape job.professorName job.university = .ok r ∧
      env.analyze r.reviews r.professorInfo job.userQuestion = .ok sum ∧
      env.commitWriteOk = true ∧
      runJob s (some jid) env =
        (setJob (setJob s jid (runningJob env job)) jid
          (completeJob env job
            { reviews := r.reviews, professorInfo := r.professorInfo,
              aiSummary := sum }),
         .ok ("Job " ++ jid ++ " completed successfully") r.reviews.length)) ∨
    (∃ msg, ((∃ m, env.scrape job.professorName job.university = .error m) ∨
        (∃ r m, env.scrape job.professorName job.university = .ok r ∧
          env.analyze r.reviews r.professorInfo job.userQuestion = .error m) ∨
        env.commitWriteOk = false) ∧
      runJob s (some jid) env =
        runJobCatch (setJob s jid (runningJob env job)) jid env msg) := by
  cases hscrape : env.scrape job.professorName job.university with
  | error m =>
    refine Or.inr ⟨m, Or.inl ⟨m, rfl⟩, ?_⟩
    simp only [runJob, if_neg hne, hjob, hclaim, if_true, hscrape]
    rfl
  | ok r =>
    cases hanalyze : env.analyze r.reviews r.professorInfo job.userQuestion with
    | error m =>
      refine Or.inr ⟨m, Or.inr (Or.inl ⟨r, m, rfl, hanalyze⟩), ?_⟩
      simp only [runJob, if_neg hne, hjob, hclaim, if_true, hscrape, hanalyze]
      rfl
    | ok sum =>
      cases hcommit : env.commitWriteOk with
      | true =>
        refine Or.inl ⟨r, sum, rfl, hanalyze, rfl, ?_⟩
        simp only [runJob, if_neg hne, hjob, hclaim, if_true, hscrape,
          hanalyze, hcommit]
        rfl
      | false =>
        refine Or.inr ⟨env.commitFailMsg, Or.inr (Or.inr rfl), ?_⟩
        simp only [runJob, if_neg hne, hjob, hclaim, if_true, hscrape,
          hanalyze, hcommit]
        rfl

/-!
## Concrete fixtures
-/

/-- A valid submission request. -/
def janeReq : StartScrapeRequest :=
  { professorName := "Jane Doe", university := "Test University",
    userQuestion := none }

/-- The `queued` record `startScrape` writes for `janeReq` at time `"t0"`. -/
def janeJob : Job :=
  { status := .queued, professorName := "Jane Doe",
    university := "Test University", userQuestion := none, result := none,
    error := none, createdAt := "t0", updatedAt := none }

/-- A sample review and aggregate returned by the scraping collaborator. -/
def sampleReview : Review :=
  { rating := 5, difficulty := 3, course := "CS101", date := "2024-01-01",
    comment := "Great lectures", tags := ["caring"], thumbsUp := 1,
    thumbsDown := 0 }

def sampleInfo : ProfessorInfo :=
  { overallRating := 4, totalRatings := 1, wouldTakeAgainPercent := 100,
    difficultyRating := 3, department := "CS" }

/-- An aggregate for a page with no observable optional data. -/
def emptyInfo : ProfessorInfo :=
  { overallRating := 0, totalRatings := 0, wouldTakeAgainPercent := 0,
    difficultyRating := 0, department := "Not specified" }

/-- Worker environment in which every call succeeds and the scrape returns
one review. -/
def envGood : WorkerEnv :=
  { scrape := fun _ _ =>
      .ok { professorInfo := sampleInfo, reviews := [sampleReview] }
    analyze := fun _ _ _ => .ok "## Summary"
    claimWriteOk := true
    claimFailMsg := "claim write failed"
    commitWriteOk := true
    commitFailMsg := "commit write failed"
    errorReadOk := true
    errorWriteOk := true
    tClaim := "t1"
    tCommit := "t2"
    tError := "tE" }

/-- Worker environment in which every call succeeds but the scrape observes
zero reviews. -/
def envEmptyScrape : WorkerEnv :=
  { envGood with
      scrape := fun _ _ => .ok { professorInfo := emptyInfo, reviews := [] }
      analyze := fun _ _ _ => .ok "No reviews to summarize" }

/-- Worker environment in which the scrape throws. -/
def envScrapeFail : WorkerEnv :=
  { envGood with
      scrape := fun _ _ => .error "Failed to scrape professor data"
      tClaim := "t3"
      tError := "t4" }

/-- Store states along the trace: submit `janeReq` as `"job-1"`, run it
once (one review, succeeds), then a duplicate trigger runs it again and the
second scrape throws. -/
def traceS1 : Store := execOp [] (.submitOp "job-1" janeReq "t0" true)

def traceS2 : Store := execOp traceS1 (.runJobOp (some "job-1") envGood)

def traceS3 : Store := execOp traceS2 (.runJobOp (some "job-1") envScrapeFail)

/-- A field-coherent job carries `result` exactly when `complete` and
`error` exactly when `error`. -/
theorem jobFieldsOk_iff (j : Job) (h : jobFieldsOk j = true) :
    (j.result.isSome = true ↔ j.status = .complete) ∧
    (j.error.isSome = true ↔ j.status = .error) := by
  cases hs : j.status <;>
    simp only [jobFieldsOk, hs, Bool.and_eq_true,
      Option.isNone_iff_eq_none] at h
  · simp [hs, h.1, h.2]
  · simp [hs, h.1, h.2]
  · simp [hs, h.1, h.2]
  · simp [hs, h.1, h.2]

/-!
## Claims
-/

/-- C1 (counterexample): the worker has no empty-review check.  Submitting
`("Jane Doe", "Test University")` and running the job with a scrape that
observes zero reviews ends the job `complete` — not `error` — with a
result carrying the empty review list, and the handler answers 200 with
`reviewCount = 0`. -/
theorem emptyReviews_marked_complete :
    (runJob traceS1 (some "job-1") envEmptyScrape).2 =
      .ok "Job job-1 completed successfully" 0 ∧
    (getJob (runJob traceS1 (some "job-1") envEmptyScrape).1 "job-1").map
        (fun j => (j.status, j.result)) =
      some (.complete, some
        { reviews := [], professorInfo := emptyInfo,
          aiSummary := "No reviews to summarize" }) ∧
    (getJob (runJob traceS1 (some "job-1") envEmptyScrape).1 "job-1").map
        Job.status ≠ some .error :=
  ⟨rfl, rfl, by decide⟩

/-- C1 (amended): the pipeline does not treat an empty review list
specially.  Whenever the scrape and analysis phases succeed and both writes
go through, `runJob` stores the job as `complete` with `result.reviews`
equal to whatever list the scrape returned — including the empty list —
and answers success with that list's length. -/
theorem runJob_success_commits (s : Store) (jid : String) (env : WorkerEnv)
    (job : Job) (r : ScraperResult) (sum : String) (hne : jid ≠ "")
    (hjob : getJob s jid = some job)
    (hscrape : env.scrape job.professorName job.university = .ok r)
    (hanalyze : env.analyze r.reviews r.professorInfo job.userQuestion = .ok sum)
    (hclaim : env.claimWriteOk = true) (hcommit : env.commitWriteOk = true) :
    getJob (runJob s (some jid) env).1 jid =
      some (completeJob env job
        { reviews := r.reviews, professorInfo := r.professorInfo,
          aiSummary := sum }) ∧
    (runJob s (some jid) env).2 =
      .ok ("Job " ++ jid ++ " completed successfully") r.reviews.length := by
  rcases runJob_catch_cases s jid env job hne hjob hclaim with
    ⟨r', sum', hs', ha', _, heq⟩ | ⟨m, hcond, heq⟩
  · have hr : r' = r := by
      have := hs'.symm.trans hscrape
      exact (Except.ok.inj this)
    subst hr
    have hsum : sum' = sum := by
      have := ha'.symm.trans hanalyze
      exact (Except.ok.inj this)
    subst hsum
    rw [heq]
    exact ⟨getJob_setJob_self _ _ _, rfl⟩
  · rcases hcond with ⟨m', hm⟩ | ⟨r', m', hr', hm⟩ | hfalse
    · rw [hscrape] at hm; cases hm
    · rw [hscrape] at hr'
      cases Except.ok.inj hr'
      rw [hanalyze] at hm; cases hm
    · rw [hcommit] at hfalse; cases hfalse

/-- C1 (witness): the amended statement at the zero-review input. -/
theorem runJob_success_commits_witness :
    getJob (runJob traceS1 (some "job-1") envEmptyScrape).1 "job-1" =
      some (completeJob envEmptyScrape janeJob
        { reviews := [], professorInfo := emptyInfo,
          aiSummary := "No reviews to summarize" }) ∧
    (runJob traceS1 (some "job-1") envEmptyScrape).2 =
      .ok ("Job " ++ "job-1" ++ " completed successfully") ([] : List Review).length :=
  runJob_success_commits traceS1 "job-1" envEmptyScrape janeJob
    { professorInfo := emptyInfo, reviews := [] } "No reviews to summarize"
    (by decide) rfl rfl rfl rfl rfl

/-- C2 (counterexample): a duplicate trigger violates terminal-state
immutability.  After submit and one successful run the job is `complete`;
a second `runJob` for the same id (whose scrape throws) overwrites the
terminal record, ending at `error`. -/
theorem terminal_status_overwritten :
    (getJob traceS2 "job-1").map Job.status = some .complete ∧
    (getJob traceS3 "job-1").map Job.status = some .error ∧
    getJob traceS3 "job-1" ≠ getJob traceS2 "job-1" :=
  ⟨rfl, rfl, by decide⟩

/-- C2 (amended): provided each job id is dispatched to the worker at most
once and submissions use fresh ids, every request moves every job slot only
forward along `absent → queued → running → {complete, error}` and leaves a
terminal job record untouched. -/
theorem job_status_step_monotone {u : List String} {s : Store}
    (hr : Reach u s) (op : Op) (hop : OpAllowed u s op) (id : String) :
    stepOk (getJob s id) (getJob (execOp s op) id) :=
  step_mono hr op hop id

/-- C2 (witness): the submit step taken from the empty store. -/
theorem job_status_step_monotone_witness :
    stepOk (getJob [] "job-1")
      (getJob (execOp [] (.submitOp "job-1" janeReq "t0" true)) "job-1") :=
  job_status_step_monotone Reach.init _ (OpAllowed.submit rfl) "job-1"

/-- C3 (counterexample): after a duplicate trigger whose scrape throws, the
stored job has `status = error` while BOTH `result` (kept from the earlier
complete record by the spread) and `error` are populated. -/
theorem error_status_with_result_populated :
    (getJob traceS3 "job-1").map
        (fun j => (j.status, j.result.isSome, j.error.isSome)) =
      some (.error, true, true) := rfl

/-- C3 (amended): provided each job id is dispatched to the worker at most
once and submissions use fresh ids, every reachable job record has `result`
populated iff `status = complete` and `error` populated iff
`status = error` (hence both absent while `queued`/`running`, and exactly
one populated once terminal). -/
theorem result_error_iff_status {u : List String} {s : Store}
    (hr : Reach u s) (id : String) (j : Job)
    (hget : getJob s id = some j) :
    (j.result.isSome = true ↔ j.status = .complete) ∧
    (j.error.isSome = true ↔ j.status = .error) :=
  jobFieldsOk_iff j (reach_inv hr id j hget).1

/-- C3 (witness): the invariant evaluated on the freshly submitted job. -/
theorem result_error_iff_status_witness :
    (janeJob.result.isSome = true ↔ janeJob.status = .complete) ∧
    (janeJob.error.isSome = true ↔ janeJob.status = .error) :=
  result_error_iff_status
    (Reach.step Reach.init
      (@OpAllowed.submit [] [] "job-1" janeReq "t0" true rfl))
    "job-1" janeJob rfl

/-- A whitespace-only professor name: truthy in JavaScript, so it passes
the submission handler's falsy check. -/
def wsReq : StartScrapeRequest :=
  { professorName := " ", university := "Test University",
    userQuestion := none }

/-- C4 (counterexample): the handler checks `!professorName`, not a trimmed
value.  A whitespace-only professor name (empty after trimming) is
accepted: the submission answers 201 and the job is created and retrievable
via `checkJob`. -/
theorem whitespace_submit_creates_job :
    (" ").data.all Char.isWhitespace = true ∧
    (startScrape [] wsReq "job-1" "t0" true).2 =
      .created "job-1" "Job created successfully" ∧
    checkJob (startScrape [] wsReq "job-1" "t0" true).1 (some "job-1") =
      .ok "job-1"
        { status := .queued
          professorName := " "
          university := "Test University"
          userQuestion := none
          result := none
          error := none
          createdAt := "t0"
          updatedAt := none } :=
  ⟨rfl, rfl, rfl⟩

/-- C4 (amended): the submission handler rejects exactly the requests in
which `professorName` or `university` is missing or the empty string (no
trimming is applied); it then answers 400 and leaves the store untouched,
so no job becomes retrievable. -/
theorem submit_rejects_empty_fields (s : Store) (req : StartScrapeRequest)
    (jobId now : String) (triggerOk : Bool)
    (h : req.professorName = "" ∨ req.university = "") :
    startScrape s req jobId now triggerOk =
      (s, .badRequest "professorName and university are required") := by
  simp only [startScrape, if_pos h]

/-- C4 (witness): the rejection at an empty professor name. -/
theorem submit_rejects_empty_fields_witness :
    startScrape []
      { professorName := "", university := "Test University",
        userQuestion := none } "job-1" "t0" true =
      ([], .badRequest "professorName and university are required") :=
  submit_rejects_empty_fields [] _ "job-1" "t0" true (Or.inl rfl)

/-- C5 (counterexample): the empty-string job id is absent from every
store, yet `runJob` rejects it with 400 Bad Request (the JavaScript falsy
check fires before the load), not with 404 NotFound. -/
theorem empty_jobId_badRequest_not_notFound :
    getJob ([] : Store) "" = none ∧
    runJob [] (some "") envGood =
      ([], .badRequest "Missing jobId in request body") ∧
    (runJob [] (some "") envGood).2 ≠ .notFound "Job  not found" :=
  ⟨rfl, rfl, by decide⟩

/-- C5 (amended): for every NON-EMPTY job id absent from the store,
`runJob` answers 404 `Job <id> not found` and performs no write — the
store is returned unchanged (the empty id is instead rejected with 400,
also without any write). -/
theorem runJob_absent_notFound (s : Store) (jid : String) (env : WorkerEnv)
    (hne : jid ≠ "") (hnone : getJob s jid = none) :
    runJob s (some jid) env = (s, .notFound ("Job " ++ jid ++ " not found")) := by
  simp only [runJob, if_neg hne, hnone]

/-- C5 (witness): the 404 at a fresh id on the empty store. -/
theorem runJob_absent_notFound_witness :
    runJob [] (some "job-9") envGood =
      ([], .notFound ("Job " ++ "job-9" ++ " not found")) :=
  runJob_absent_notFound [] "job-9" envGood (by decide) rfl

/-- C6: whenever the scrape phase, the analysis phase or the commit write
throws during a `runJob` execution (with the job loaded and the claim write
through), the handler answers 500 to its caller; if the catch-block read
and write succeed, the job is overwritten with `status = error`, an error
message and the fresh `updatedAt` taken in the catch block; if that final
write fails, the job is left in `running`. -/
theorem runJob_exception_error_path (s : Store) (jid : String)
    (env : WorkerEnv) (job : Job) (hne : jid ≠ "")
    (hjob : getJob s jid = some job) (hclaim : env.claimWriteOk = true)
    (hfail : (∃ m, env.scrape job.professorName job.university = .error m) ∨
      (∃ r m, env.scrape job.professorName job.university = .ok r ∧
        env.analyze r.reviews r.professorInfo job.userQuestion = .error m) ∨
      env.commitWriteOk = false) :
    (∃ m, (runJob s (some jid) env).2 = .serverError m) ∧
    (env.errorReadOk = true → env.errorWriteOk = true →
      ∃ m, getJob (runJob s (some jid) env).1 jid =
        some (errorJob env job m)) ∧
    (env.errorWriteOk = false →
      getJob (runJob s (some jid) env).1 jid =
        some (runningJob env job)) := by
  rcases runJob_catch_cases s jid env job hne hjob hclaim with
    ⟨r', sum', hs', ha', hc', heq⟩ | ⟨m, hcond, heq⟩
  · rcases hfail with ⟨m', hm⟩ | ⟨r2, m', hr2, hm⟩ | hfalse
    · rw [hs'] at hm; cases hm
    · rw [hs'] at hr2
      cases Except.ok.inj hr2
      rw [ha'] at hm; cases hm
    · rw [hc'] at hfalse; cases hfalse
  · have hs1 : getJob (setJob s jid (runningJob env job)) jid =
        some (runningJob env job) := getJob_setJob_self _ _ _
    obtain ⟨hresp, herrw, hnow, _⟩ :=
      runJobCatch_spec (setJob s jid (runningJob env job)) jid env m
        (runningJob env job) hs1
    refine ⟨⟨m, by rw [heq]; exact hresp⟩, ?_, ?_⟩
    · intro hread hwrite
      refine ⟨m, ?_⟩
      rw [heq, herrw hread hwrite, errorJob_runningJob]
    · intro hwrite
      rw [heq, hnow hwrite]

/-- C6 (witness): a scrape failure on a queued job with a healthy store. -/
theorem runJob_exception_error_path_witness :
    (∃ m, (runJob [("job-1", janeJob)] (some "job-1") envScrapeFail).2 =
      .serverError m) ∧
    (envScrapeFail.errorReadOk = true → envScrapeFail.errorWriteOk = true →
      ∃ m, getJob (runJob [("job-1", janeJob)] (some "job-1")
        envScrapeFail).1 "job-1" = some (errorJob envScrapeFail janeJob m)) ∧
    (envScrapeFail.errorWriteOk = false →
      getJob (runJob [("job-1", janeJob)] (some "job-1")
        envScrapeFail).1 "job-1" = some (runningJob envScrapeFail janeJob)) :=
  runJob_exception_error_path [("job-1", janeJob)] "job-1" envScrapeFail
    janeJob (by decide) rfl rfl
    (Or.inl ⟨"Failed to scrape professor data", rfl⟩)

/-- C7: a valid submission writes exactly the fresh `queued` record (with
`createdAt = now` and neither `result` nor `error`), answers 201 with the
fresh job id immediately, and the outcome of the fire-and-forget worker
trigger changes neither the stored job nor the response. -/
theorem submit_valid_creates_queued (s : Store) (req : StartScrapeRequest)
    (jobId now : String) (b1 b2 : Bool) (hp : req.professorName ≠ "")
    (hu : req.university ≠ "") :
    startScrape s req jobId now b1 =
      (setJob s jobId
        { status := .queued
          professorName := req.professorName
          university := req.university
          userQuestion := req.userQuestion
          result := none
          error := none
          createdAt := now
          updatedAt := none },
       .created jobId "Job created successfully") ∧
    getJob (startScrape s req jobId now b1).1 jobId =
      some
        { status := .queued
          professorName := req.professorName
          university := req.university
          userQuestion := req.userQuestion
          result := none
          error := none
          createdAt := now
          updatedAt := none } ∧
    startScrape s req jobId now b1 = startScrape s req jobId now b2 := by
  have hcond : ¬(req.professorName = "" ∨ req.university = "") :=
    not_or.mpr ⟨hp, hu⟩
  simp only [startScrape, if_neg hcond]
  exact ⟨trivial, getJob_setJob_self _ _ _, trivial⟩

/-- C7 (witness): the Jane Doe submission on the empty store. -/
theorem submit_valid_creates_queued_witness :
    startScrape [] janeReq "job-1" "t0" true =
      (setJob [] "job-1"
        { status := .queued
          professorName := janeReq.professorName
          university := janeReq.university
          userQuestion := janeReq.userQuestion
          result := none
          error := none
          createdAt := "t0"
          updatedAt := none },
       .created "job-1" "Job created successfully") ∧
    getJob (startScrape [] janeReq "job-1" "t0" true).1 "job-1" =
      some
        { status := .queued
          professorName := janeReq.professorName
          university := janeReq.university
          userQuestion := janeReq.userQuestion
          result := none
          error := none
          createdAt := "t0"
          updatedAt := none } ∧
    startScrape [] janeReq "job-1" "t0" true =
      startScrape [] janeReq "job-1" "t0" false :=
  submit_valid_creates_queued [] janeReq "job-1" "t0" true false
    (by decide) (by decide)

/-- C8 (counterexample): the empty-string id — an id never issued and
absent from every store — is answered with 400 (the falsy check fires),
not with 404 NotFound. -/
theorem checkJob_empty_id_badRequest :
    getJob ([] : Store) "" = none ∧
    checkJob [] (some "") = .badRequest "Job ID is required (query param: id)" ∧
    checkJob [] (some "") ≠ .notFound "Job  not found" :=
  ⟨rfl, rfl, by decide⟩

/-- C8 (amended): `checkJob` with a missing (or empty) `id` answers 400;
with a non-empty id absent from the store it answers 404; with a present id
it answers 200 carrying the stored job together with the job id; and it
never alters the store. -/
theorem checkJob_spec (s : Store) (jid : String) (hne : jid ≠ "") :
    checkJob s none = .badRequest "Job ID is required (query param: id)" ∧
    checkJob s (some "") = .badRequest "Job ID is required (query param: id)" ∧
    (getJob s jid = none →
      checkJob s (some jid) = .notFound ("Job " ++ jid ++ " not found")) ∧
    (∀ j, getJob s jid = some j → checkJob s (some jid) = .ok jid j) ∧
    (∀ i, execOp s (.checkJobOp i) = s) := by
  refine ⟨rfl, rfl, ?_, ?_, fun i => rfl⟩
  · intro hnone
    simp only [checkJob, if_neg hne, hnone]
  · intro j hj
    simp only [checkJob, if_neg hne, hj]

/-- C8 (witness): the three answers on a store holding one job. -/
theorem checkJob_spec_witness :
    checkJob [("job-1", janeJob)] (some "job-1") = .ok "job-1" janeJob ∧
    checkJob [("job-1", janeJob)] none =
      .badRequest "Job ID is required (query param: id)" :=
  ⟨(checkJob_spec [("job-1", janeJob)] "job-1" (by decide)).2.2.2.1
      janeJob rfl,
   (checkJob_spec [("job-1", janeJob)] "job-1" (by decide)).1⟩

/-- C9: the scraper's return mapping defaults every optional extracted
field deterministically — numeric fields to 0, `course`/`department` to
"Not specified", tag lists to `[]` — while preserving the required
rating/date/comment, and it is a total function, so extraction output with
absent optional fields never makes the scrape fail. -/
theorem scraper_defaults (pageData : ExtractedPageData)
    (review : ExtractedReview)
    (hdep : pageData.department = none)
    (hwta : pageData.wouldTakeAgainPercent = none)
    (hdiff : pageData.difficultyRating = none)
    (hrdiff : review.difficulty = none) (hrcourse : review.course = none)
    (hrtags : review.tags = none) (hrup : review.thumbsUp = none)
    (hrdown : review.thumbsDown = none) :
    (scrapeProfessorReturn pageData).professorInfo =
      { overallRating := pageData.overallRating
        totalRatings := pageData.totalRatings
        wouldTakeAgainPercent := 0
        difficultyRating := 0
        department := "Not specified" } ∧
    toReview review =
      { rating := review.rating
        difficulty := 0
        course := "Not specified"
        date := review.date
        comment := review.comment
        tags := []
        thumbsUp := 0
        thumbsDown := 0 } ∧
    (scrapeProfessorReturn pageData).reviews = pageData.reviews.map toReview := by
  refine ⟨?_, ?_, rfl⟩
  · simp [scrapeProfessorReturn, hdep, hwta, hdiff]
  · simp [toReview, hrdiff, hrcourse, hrtags, hrup, hrdown]

/-- C9 (witness): a page and a review with every optional field absent. -/
theorem scraper_defaults_witness :
    (scrapeProfessorReturn
      { professorName := "Jane Doe"
        department := none
        overallRating := 4
        totalRatings := 2
        wouldTakeAgainPercent := none
        difficultyRating := none
        reviews := [] }).professorInfo =
      { overallRating := 4
        totalRatings := 2
        wouldTakeAgainPercent := 0
        difficultyRating := 0
        department := "Not specified" } ∧
    toReview
      { rating := 5
        difficulty := none
        course := none
        date := "2024-01-01"
        comment := "Great"
        tags := none
        thumbsUp := none
        thumbsDown := none } =
      { rating := 5
        difficulty := 0
        course := "Not specified"
        date := "2024-01-01"
        comment := "Great"
        tags := []
        thumbsUp := 0
        thumbsDown := 0 } ∧
    (scrapeProfessorReturn
      { professorName := "Jane Doe"
        department := none
        overallRating := 4
        totalRatings := 2
        wouldTakeAgainPercent := none
        difficultyRating := none
        reviews := [] }).reviews = List.map toReview [] :=
  scraper_defaults _ _ rfl rfl rfl rfl rfl rfl rfl rfl

/-- C10: a `/run-job` request whose body lacks a `jobId` is rejected with
400 `Missing jobId in request body` before any Redis access: the store is
returned unchanged and — the check preceding STEP 1 — the outcome does not
depend on the store contents or the environment at all. -/
theorem runJob_missing_jobId (s : Store) (env : WorkerEnv) :
    runJob s none env = (s, .badRequest "Missing jobId in request body") := rfl

end ProfRater
